import Mathlib

/-!
Shallow embedding of the relay orchestration engine of `bluetooth_2_usb`
(files `bluetooth_2_usb.py` and `src/bluetooth_2_usb/relay.py`), together
with theorems checking the natural-language specification against it.

Conventions of the embedding:
* Python strings are Lean `String`; `str.lower()` / `str.startswith` /
  `needle in hay` / `str.replace("-", ":")` are transcribed as the
  char-list functions `pyLower`, `pyStartsWith`, `containsSub`,
  `pyReplaceDashColon` below (source strings are ASCII device names,
  paths and MAC addresses).
* Python sets of key names are Lean `List String` used as sets
  (`setAdd`, `setDiscard`, `setIsSubsetOf` transcribe `set.add`,
  `set.discard`, `set.issubset`).
* `asyncio.Event` is a `Bool` (`set` = `true`, `clear` = `false`).
* Exceptions raised by an HID write are the inductive `PyExc`; fallible
  code returns `Except PyExc _`.  `PyExc` models the `Exception`
  subclasses a write can raise (`BlockingIOError`, `BrokenPipeError`,
  and everything else, e.g. the `RuntimeError` for an uninitialized
  gadget, as `otherException`).
* The external keycode table (`src/bluetooth_2_usb/evdev.py`, not part
  of the sources under verification) is abstracted: a key event carries
  the `Option String` result of `find_key_name` directly, and the
  outcome of an HID write is an oracle `Nat → Option PyExc` giving the
  exception (if any) raised at each write attempt.
-/

/-- Transcribes Python `str.lower()` (ASCII data in this program). -/
def pyLower (s : String) : String := ⟨s.data.map Char.toLower⟩

/-- `listStarts a b` is true iff the list `b` begins with the list `a`. -/
def listStarts : List Char → List Char → Bool
  | [], _ => true
  | _ :: _, [] => false
  | x :: xs, y :: ys => x == y && listStarts xs ys

/-- Transcribes Python `s.startswith(pre)`. -/
def pyStartsWith (s pre : String) : Bool := listStarts pre.data s.data

/-- `containsSub needle hay` transcribes Python `needle in hay`
(contiguous-substring test; the empty needle is in every string). -/
def containsSub (needle : List Char) : List Char → Bool
  | [] => listStarts needle []
  | c :: rest => listStarts needle (c :: rest) || containsSub needle rest

/-- Transcribes Python `s.replace("-", ":")`: with a one-character
pattern, replacement is a character-wise map. -/
def pyReplaceDashColon (s : String) : String :=
  ⟨s.data.map (fun c => if c == '-' then ':' else c)⟩

/-- Python `set.add` on a duplicate-free list used as a set. -/
def setAdd (s : List String) (k : String) : List String :=
  if s.contains k then s else k :: s

/-- Python `set.discard` on a list used as a set. -/
def setDiscard (s : List String) (k : String) : List String :=
  s.filter (fun x => x != k)

/-- Python `a.issubset(b)` on lists used as sets. -/
def setIsSubsetOf (a b : List String) : Bool :=
  a.all (fun x => b.contains x)

/-!
## The relay gate

`bluetooth_2_usb.py` coordinates relaying via three `asyncio.Event`s:
`devices_found_event`, `udc_configured_event` and `relaying_active`,
plus the closure `update_relaying` that recomputes `relaying_active`
from the first two.  `publishCount` counts the set/clear mutations
performed on `relaying_active` (each call of `update_relaying` performs
exactly one, as does each `toggle_relaying`).
-/

structure GateState where
  devicesFound : Bool
  udcConfigured : Bool
  relayingActive : Bool
  publishCount : Nat
deriving DecidableEq, Repr

/-- Transcribes `update_relaying` in `bluetooth_2_usb.py`: sets
`relaying_active` iff both `devices_found_event` and
`udc_configured_event` are set. -/
def update_relaying (g : GateState) : GateState :=
  { g with
    relayingActive := g.devicesFound && g.udcConfigured
    publishCount := g.publishCount + 1 }

/-!
## ShortcutToggler (`relay.py`, class `ShortcutToggler`)
-/

inductive KeyPressState where
  | down
  | up
  | hold
deriving DecidableEq, Repr

/-- A categorized evdev key event.  `keyName` is the result of the
external `find_key_name` lookup (`None` when the code has no name). -/
structure KeyEvent where
  keyName : Option String
  keystate : KeyPressState
deriving DecidableEq, Repr

/-- The mutable state of `ShortcutToggler` (`shortcut_keys`,
`currently_pressed`); `releasedAllCount` counts the forced
`release_all()` calls on the keyboard and mouse gadgets performed on
toggle-off. -/
structure ShortcutToggler where
  shortcutKeys : List String
  currentlyPressed : List String
  releasedAllCount : Nat
deriving DecidableEq, Repr

/-- Transcribes `ShortcutToggler.toggle_relaying`.  The shared
`relaying_active` event lives in the `GateState` passed alongside the
toggler, mirroring the shared `asyncio.Event`. -/
def ShortcutToggler.toggle_relaying (t : ShortcutToggler) (g : GateState) :
    ShortcutToggler × GateState :=
  if g.relayingActive then
    ({ t with
        currentlyPressed := []
        releasedAllCount := t.releasedAllCount + 1 },
     { g with relayingActive := false, publishCount := g.publishCount + 1 })
  else
    (t, { g with relayingActive := true, publishCount := g.publishCount + 1 })

/-- Transcribes `ShortcutToggler.handle_key_event`: update
`currently_pressed` on key-down/key-up, then toggle whenever
`shortcut_keys ⊆ currently_pressed`. -/
def ShortcutToggler.handle_key_event (t : ShortcutToggler) (g : GateState)
    (ev : KeyEvent) : ShortcutToggler × GateState :=
  match ev.keyName with
  | none => (t, g)
  | some keyName =>
    let pressed :=
      match ev.keystate with
      | KeyPressState.down => setAdd t.currentlyPressed keyName
      | KeyPressState.up => setDiscard t.currentlyPressed keyName
      | KeyPressState.hold => t.currentlyPressed
    let t := { t with currentlyPressed := pressed }
    if setIsSubsetOf t.shortcutKeys t.currentlyPressed then
      ShortcutToggler.toggle_relaying t g
    else
      (t, g)

/-!
## DeviceIdentifier (`relay.py`, class `DeviceIdentifier`)

`PATH_REGEX = r"^/dev/input/event.*$"` and
`MAC_REGEX = r"^([0-9a-fA-F]{2}[:-]){5}([0-9a-fA-F]{2})$"` are
transcribed as decidable predicates.  In Python `re.match` with no
flags, `.` matches any character except a newline and `$` matches at
the end of the string or just before a single trailing newline; both
subtleties are reproduced.
-/

/-- The character class `[0-9a-fA-F]`. -/
def isHexChar (c : Char) : Bool :=
  ('0' ≤ c && c ≤ '9') || ('a' ≤ c && c ≤ 'f') || ('A' ≤ c && c ≤ 'F')

/-- `.*$` applied to the remainder of the subject: any characters
except newline, optionally followed by one final newline. -/
def dotStarTail (cs : List Char) : Bool :=
  cs.all (fun c => c != '\n') ||
    (cs.dropLast.all (fun c => c != '\n') && cs.getLast? == some '\n')

/-- Transcribes `re.match(PATH_REGEX, v)` viewed as a Bool. -/
def path_regex_match (v : String) : Bool :=
  listStarts "/dev/input/event".data v.data && dotStarTail (v.data.drop 16)

/-- `macChunks n cs`: `cs` consists of `n` groups `hex hex delim`
(with `delim ∈ {:, -}`) followed by `hex hex` and the `$` anchor. -/
def macChunks : Nat → List Char → Bool
  | n + 1, a :: b :: d :: rest =>
    isHexChar a && isHexChar b && (d == ':' || d == '-') && macChunks n rest
  | 0, [a, b] => isHexChar a && isHexChar b
  | 0, [a, b, c] => isHexChar a && isHexChar b && c == '\n'
  | _, _ => false

/-- Transcribes `re.match(MAC_REGEX, v)` viewed as a Bool. -/
def mac_regex_match (v : String) : Bool := macChunks 5 v.data

inductive IdentifierType where
  | path
  | mac
  | name
deriving DecidableEq, Repr

/-- Transcribes `DeviceIdentifier._determine_identifier_type`. -/
def _determine_identifier_type (value : String) : IdentifierType :=
  if path_regex_match value then IdentifierType.path
  else if mac_regex_match value then IdentifierType.mac
  else IdentifierType.name

/-- Transcribes `DeviceIdentifier._normalize_identifier`. -/
def _normalize_identifier (value : String) (t : IdentifierType) : String :=
  match t with
  | IdentifierType.path => value
  | IdentifierType.mac => pyReplaceDashColon (pyLower value)
  | IdentifierType.name => pyLower value

structure DeviceIdentifier where
  value : String
  type : IdentifierType
  normalizedValue : String
deriving DecidableEq, Repr

/-- Transcribes `DeviceIdentifier.__init__`. -/
def DeviceIdentifier.ofString (v : String) : DeviceIdentifier :=
  let t := _determine_identifier_type v
  { value := v, type := t, normalizedValue := _normalize_identifier v t }

/-- The observable attributes of an evdev `InputDevice` used by the
relay engine.  `uniq` may be `None` in evdev, hence the `Option`. -/
structure InputDevice where
  path : String
  name : String
  uniq : Option String
deriving DecidableEq, Repr

/-- Transcribes `DeviceIdentifier.matches`.  Note that in the MAC case
the device side is `(device.uniq or "").lower()` — lower-cased only,
not delimiter-normalized. -/
def DeviceIdentifier.matches (di : DeviceIdentifier) (device : InputDevice) :
    Bool :=
  match di.type with
  | IdentifierType.path => device.path == di.value
  | IdentifierType.mac => pyLower (device.uniq.getD "") == di.normalizedValue
  | IdentifierType.name =>
    containsSub di.normalizedValue.data (pyLower device.name).data

/-!
## DeviceRelay write path (`relay.py`, `DeviceRelay._process_event_with_retry`)

The outcome of the HID write attempted by `relay_event` is abstracted
by an oracle `b : Nat → Option PyExc`: `b attempt = none` means the
write at that attempt index succeeds, `b attempt = some e` means it
raises `e`.
-/

inductive PyExc where
  | blockingIOError
  | brokenPipeError
  | otherException
deriving DecidableEq, Repr

/-- The state a `DeviceRelay` write can observe and mutate: the shared
relay gate, plus counters for delivered events (`relay_event` calls
that returned normally), write attempts (`relay_event` invocations) and
retry delays (`asyncio.sleep` calls). -/
structure RelayWriteState where
  gate : GateState
  deliveredCount : Nat
  writeAttempts : Nat
  delayCount : Nat
deriving DecidableEq, Repr

/-- Transcribes the call `relay_event(event, self._gadget_manager)`
with its outcome given by the oracle. -/
def relay_event (b : Nat → Option PyExc) (attempt : Nat) : Except PyExc Unit :=
  match b attempt with
  | none => Except.ok ()
  | some e => Except.error e

/-- The body of the `for attempt in range(self._max_blockingio_retries)`
loop of `_process_event_with_retry`, with `fuel` the number of loop
iterations remaining (`fuel = maxRetries - attempt` at every call).
Falling off the end of the `for` loop returns `None` in Python, hence
`Except.ok` with the state unchanged. -/
def processIter (b : Nat → Option PyExc) (maxRetries : Nat) :
    Nat → Nat → RelayWriteState → Except PyExc RelayWriteState
  | _, 0, s => Except.ok s
  | attempt, fuel + 1, s =>
    match relay_event b attempt with
    | Except.ok _ =>
      Except.ok { s with
        deliveredCount := s.deliveredCount + 1
        writeAttempts := s.writeAttempts + 1 }
    | Except.error PyExc.blockingIOError =>
      if attempt < maxRetries - 1 then
        processIter b maxRetries (attempt + 1) fuel
          { s with
            writeAttempts := s.writeAttempts + 1
            delayCount := s.delayCount + 1 }
      else
        Except.ok { s with writeAttempts := s.writeAttempts + 1 }
    | Except.error PyExc.brokenPipeError =>
      Except.ok { s with writeAttempts := s.writeAttempts + 1 }
    | Except.error PyExc.otherException =>
      Except.ok { s with writeAttempts := s.writeAttempts + 1 }

/-- Transcribes `DeviceRelay._process_event_with_retry`.  A result
`Except.ok` means the coroutine returned normally; `Except.error` would
mean an exception escaped it. -/
def _process_event_with_retry (b : Nat → Option PyExc) (maxRetries : Nat)
    (s : RelayWriteState) : Except PyExc RelayWriteState :=
  processIter b maxRetries 0 maxRetries s

/-- `Except.isOk` written out, so witnesses can evaluate it. -/
def exceptOk {ε α : Type} : Except ε α → Bool
  | Except.ok _ => true
  | Except.error _ => false

/-!
## DeviceRelay read loop (`relay.py`, `DeviceRelay.async_relay_events_loop`)
-/

/-- The result of `categorize` on one raw input event, as far as the
loop inspects it. -/
inductive CategorizedEvent where
  | key (ev : KeyEvent)
  | rel
  | other

/-- One step of the device's `async_read_loop`: either the read raises
(ending the loop) or it yields an event, whose HID-write outcome is
given by the attached oracle. -/
inductive ReadStep where
  | readError (e : PyExc)
  | readEvent (ev : CategorizedEvent) (b : Nat → Option PyExc)

/-- The state of one `DeviceRelay` as seen by its read loop. -/
structure DeviceRelayState where
  toggler : Option ShortcutToggler
  grabDevice : Bool
  currentlyGrabbed : Bool
  maxRetries : Nat
  write : RelayWriteState

/-- The infallible first half of the `async for` body of
`async_relay_events_loop`: feed key events to the toggler and reconcile
the grab flag with the gate.  Grab and ungrab are modelled as
succeeding (the source wraps them in `try`/`except` that only logs). -/
def relayLoopPre (st : DeviceRelayState) (ev : CategorizedEvent) :
    DeviceRelayState :=
  let st :=
    match st.toggler, ev with
    | some t, CategorizedEvent.key k =>
      let tg := ShortcutToggler.handle_key_event t st.write.gate k
      { st with toggler := some tg.1, write := { st.write with gate := tg.2 } }
    | _, _ => st
  let active := st.write.gate.relayingActive
  if st.grabDevice && active && !st.currentlyGrabbed then
    { st with currentlyGrabbed := true }
  else if st.grabDevice && !active && st.currentlyGrabbed then
    { st with currentlyGrabbed := false }
  else st

/-- Transcribes one iteration of the `async for` body of
`async_relay_events_loop`: after `relayLoopPre`, skip the event if the
gate is inactive (`continue`), otherwise dispatch it through
`_process_event_with_retry`. -/
def relayLoopStep (st : DeviceRelayState) (ev : CategorizedEvent)
    (b : Nat → Option PyExc) : Except PyExc DeviceRelayState :=
  let st := relayLoopPre st ev
  if !st.write.gate.relayingActive then Except.ok st
  else
    match _process_event_with_retry b st.maxRetries st.write with
    | Except.ok w => Except.ok { st with write := w }
    | Except.error e => Except.error e

/-- Transcribes `async_relay_events_loop` run over a finite schedule of
read steps: a read error propagates out of the loop (to the handlers in
`RelayController._async_relay_events`); otherwise the loop keeps
consuming events. -/
def async_relay_events_loop (steps : List ReadStep)
    (st : DeviceRelayState) : Except PyExc DeviceRelayState :=
  match steps with
  | [] => Except.ok st
  | ReadStep.readError e :: _ => Except.error e
  | ReadStep.readEvent ev b :: rest =>
    match relayLoopStep st ev b with
    | Except.ok st2 => async_relay_events_loop rest st2
    | Except.error e => Except.error e

/-- True iff no step of the schedule raises from the device read. -/
def noReadErrors (steps : List ReadStep) : Bool :=
  steps.all fun s =>
    match s with
    | ReadStep.readError _ => false
    | ReadStep.readEvent _ _ => true

/-!
## RelayController (`relay.py`, class `RelayController`)

Only the fields the claims exercise are modelled: the matching
configuration, the active-task table (`self._active_tasks`, a dict
keyed by device path), and the shared gate.  `cancelLog` records the
paths on which `task.cancel()` was called, to observe
double-cancellation.  The deployment in `bluetooth_2_usb.py` always
passes `devices_found_event` and `update_relaying` as the callback, so
the early-return guards for their absence are not reached and the
callback is `update_relaying`.
-/

structure TaskEntry where
  done : Bool
deriving DecidableEq, Repr

structure RelayController where
  deviceIds : List DeviceIdentifier
  autoDiscover : Bool
  skipNamePrefixes : List String
  activeTasks : List (String × TaskEntry)
  gate : GateState
  cancelLog : List String
deriving DecidableEq, Repr

/-- The `for prefix in self._skip_name_prefixes` loop of
`_should_relay`: return `False` on the first case-insensitive
name-prefix hit, `True` after the loop. -/
def skipNameLoop (nameLower : String) : List String → Bool
  | [] => true
  | p :: rest =>
    if pyStartsWith nameLower (pyLower p) then false
    else skipNameLoop nameLower rest

/-- Transcribes `RelayController._should_relay`. -/
def _should_relay (rc : RelayController) (device : InputDevice) : Bool :=
  let nameLower := pyLower device.name
  if rc.autoDiscover then skipNameLoop nameLower rc.skipNamePrefixes
  else rc.deviceIds.any fun di => di.matches device

/-- Transcribes `RelayController._update_devices_found_event`: set the
devices-found event iff the active-task table is non-empty, then invoke
the relay-activation callback (`update_relaying`). -/
def _update_devices_found_event (rc : RelayController) : RelayController :=
  let g :=
    if rc.activeTasks.isEmpty then { rc.gate with devicesFound := false }
    else { rc.gate with devicesFound := true }
  { rc with gate := update_relaying g }

/-- Transcribes `dict.pop(path, None)`: the value at the key if
present, and the table without that entry. -/
def dictPop (p : String) :
    List (String × TaskEntry) → Option TaskEntry × List (String × TaskEntry)
  | [] => (none, [])
  | (k, v) :: rest =>
    if k == p then (some v, rest)
    else
      let r := dictPop p rest
      (r.1, (k, v) :: r.2)

/-- Transcribes `RelayController.remove_device`: pop the table entry,
cancel its task if present and not done, then recompute the
devices-found event. -/
def remove_device (rc : RelayController) (p : String) : RelayController :=
  let popped := dictPop p rc.activeTasks
  let rc := { rc with activeTasks := popped.2 }
  let rc :=
    match popped.1 with
    | some t =>
      if t.done then rc else { rc with cancelLog := rc.cancelLog ++ [p] }
    | none => rc
  _update_devices_found_event rc

/-!
## UdcStateMonitor (`relay.py`, class `UdcStateMonitor`)
-/

/-- The mutable state of `UdcStateMonitor`: the last observed UDC state
string and the shared gate (`udc_configured_event` plus the
`update_relaying` callback both act on `gate`). -/
structure UdcStateMonitor where
  lastState : Option String
  gate : GateState
deriving DecidableEq, Repr

/-- Transcribes `UdcStateMonitor._read_udc_state`.  The file contents
(or `none` for a `FileNotFoundError`) are passed in explicitly. -/
def _read_udc_state (file : Option String) : String :=
  match file with
  | none => "not_attached"
  | some contents => contents.trim

/-- Transcribes `UdcStateMonitor._handle_state_change`: set the
configured event iff the new state is exactly `"configured"`, then
invoke the relay-activation callback (`update_relaying`). -/
def _handle_state_change (m : UdcStateMonitor) (newState : String) :
    UdcStateMonitor :=
  { m with
    gate := update_relaying
      { m.gate with udcConfigured := newState == "configured" } }

/-- Transcribes one iteration of the `while` loop of
`UdcStateMonitor._poll_state`: read the state file, and if the value
differs from the last observed one, handle the change and record the
new value. -/
def _poll_state_iteration (m : UdcStateMonitor) (file : Option String) :
    UdcStateMonitor :=
  let newState := _read_udc_state file
  if some newState ≠ m.lastState then
    let m := _handle_state_change m newState
    { m with lastState := some newState }
  else m


/-!
## Concrete states used by witnesses and counterexamples
-/

/-- A write oracle that always raises `BrokenPipeError`. -/
def oracleBrokenPipe : Nat → Option PyExc := fun _ => some PyExc.brokenPipeError

/-- A write oracle that raises `BlockingIOError` once, then succeeds. -/
def oracleBusyOnce : Nat → Option PyExc :=
  fun i => if i == 0 then some PyExc.blockingIOError else none

/-- A write oracle that always raises `BlockingIOError`. -/
def oracleAlwaysBusy : Nat → Option PyExc := fun _ => some PyExc.blockingIOError

/-- A gate with every input set and the gate published as set. -/
def gateAllOn : GateState :=
  { devicesFound := true, udcConfigured := true, relayingActive := true
    publishCount := 0 }

/-- A relay write state over `gateAllOn` with zeroed counters. -/
def writeStateOn : RelayWriteState :=
  { gate := gateAllOn, deliveredCount := 0, writeAttempts := 0, delayCount := 0 }

/-!
## Helper lemmas
-/

theorem processIter_isOk (b : Nat → Option PyExc) (n : Nat) :
    ∀ (fuel attempt : Nat) (s : RelayWriteState),
      exceptOk (processIter b n attempt fuel s) = true := by
  intro fuel
  induction fuel with
  | zero => intro attempt s; rfl
  | succ k ih =>
    intro attempt s
    cases h : relay_event b attempt with
    | ok u => simp [processIter, h, exceptOk]
    | error e =>
      cases e with
      | blockingIOError =>
        by_cases hlt : attempt < n - 1
        · simp only [processIter, h, if_pos hlt]
          exact ih _ _
        · simp [processIter, h, hlt, exceptOk]
      | brokenPipeError => simp [processIter, h, exceptOk]
      | otherException => simp [processIter, h, exceptOk]

theorem process_event_isOk (b : Nat → Option PyExc) (n : Nat)
    (s : RelayWriteState) :
    exceptOk (_process_event_with_retry b n s) = true :=
  processIter_isOk b n n 0 s

theorem relayLoopStep_isOk (st : DeviceRelayState) (ev : CategorizedEvent)
    (b : Nat → Option PyExc) : exceptOk (relayLoopStep st ev b) = true := by
  unfold relayLoopStep
  set st1 := relayLoopPre st ev with hst1
  by_cases hact : st1.write.gate.relayingActive
  · have h := process_event_isOk b st1.maxRetries st1.write
    cases hp : _process_event_with_retry b st1.maxRetries st1.write with
    | ok w => simp [hact, hp, exceptOk]
    | error e => rw [hp] at h; simp [exceptOk] at h
  · simp only [Bool.not_eq_true] at hact
    simp [hact, exceptOk]

theorem async_loop_isOk (steps : List ReadStep) :
    ∀ st : DeviceRelayState, noReadErrors steps = true →
      exceptOk (async_relay_events_loop steps st) = true := by
  induction steps with
  | nil => intro st _; rfl
  | cons hd tl ih =>
    intro st h
    cases hd with
    | readError e => simp [noReadErrors, List.all_cons] at h
    | readEvent ev b =>
      have htl : noReadErrors tl = true := by
        simpa [noReadErrors, List.all_cons] using h
      have hstep := relayLoopStep_isOk st ev b
      unfold async_relay_events_loop
      cases hs : relayLoopStep st ev b with
      | ok st2 => exact ih st2 htl
      | error e => rw [hs] at hstep; simp [exceptOk] at hstep

/-!
## Claim theorems: the write path (C1, C3, C10)
-/

/-- C3 (confirmed): with the retry budget of 2 attempts, a write that
raises transient-busy (`BlockingIOError`) on the first attempt and
succeeds on the second delivers the event exactly once with exactly one
retry delay; a write that raises transient-busy on every allowed
attempt drops the event with zero delivered calls, and the dispatch
returns normally (no exception escapes). -/
theorem c3_retry_policy (b1 b2 : Nat → Option PyExc) (s : RelayWriteState)
    (h1 : b1 0 = some PyExc.blockingIOError) (h2 : b1 1 = none)
    (hb : ∀ i, i < 2 → b2 i = some PyExc.blockingIOError) :
    _process_event_with_retry b1 2 s =
      Except.ok { s with
        deliveredCount := s.deliveredCount + 1
        writeAttempts := s.writeAttempts + 2
        delayCount := s.delayCount + 1 } ∧
    _process_event_with_retry b2 2 s =
      Except.ok { s with
        writeAttempts := s.writeAttempts + 2
        delayCount := s.delayCount + 1 } := by
  constructor
  · simp [_process_event_with_retry, processIter, relay_event, h1, h2]
  · simp [_process_event_with_retry, processIter, relay_event,
      hb 0 (by decide), hb 1 (by decide)]

/-- Witness for `c3_retry_policy` at concrete write oracles. -/
theorem c3_retry_policy_witness :
    _process_event_with_retry oracleBusyOnce 2 writeStateOn =
      Except.ok { writeStateOn with
        deliveredCount := 1, writeAttempts := 2, delayCount := 1 } ∧
    _process_event_with_retry oracleAlwaysBusy 2 writeStateOn =
      Except.ok { writeStateOn with
        writeAttempts := 2, delayCount := 1 } :=
  c3_retry_policy oracleBusyOnce oracleAlwaysBusy writeStateOn
    rfl rfl (fun _ _ => rfl)

/-- C1 counterexample: a broken-pipe write failure does **not** clear
the shared relay gate.  With the gate set, a write that raises
`BrokenPipeError` on its first attempt returns normally with
`relayingActive` still `true` (and `publishCount` untouched), whereas
the claim requires the gate to be cleared. -/
theorem c1_gate_not_cleared_counterexample :
    _process_event_with_retry oracleBrokenPipe 2 writeStateOn =
      Except.ok { writeStateOn with writeAttempts := 1 } ∧
    gateAllOn.relayingActive = true :=
  ⟨rfl, rfl⟩

/-- C1 (corrected): on a broken-pipe write failure the write is not
retried, the event is dropped, and the dispatch returns normally so the
relay loop keeps reading; the shared relay gate is left **unchanged**
by the write path.  The gate is cleared instead by the UDC link-state
monitor once the link state leaves `"configured"` (second conjunct:
handling any state other than `"configured"`, such as `"not_attached"`,
clears the gate). -/
theorem c1_broken_pipe (b : Nat → Option PyExc) (n : Nat)
    (s : RelayWriteState) (hn : 0 < n)
    (hb : b 0 = some PyExc.brokenPipeError) :
    _process_event_with_retry b n s =
      Except.ok { s with writeAttempts := s.writeAttempts + 1 } ∧
    (∀ m : UdcStateMonitor,
      (_handle_state_change m "not_attached").gate.relayingActive = false) := by
  constructor
  · obtain ⟨k, rfl⟩ : ∃ k, n = k + 1 := ⟨n - 1, by omega⟩
    simp [_process_event_with_retry, processIter, relay_event, hb]
  · intro m
    simp [_handle_state_change, update_relaying]

/-- Witness for `c1_broken_pipe` at a concrete oracle and state. -/
theorem c1_broken_pipe_witness :
    _process_event_with_retry oracleBrokenPipe 2 writeStateOn =
      Except.ok { writeStateOn with writeAttempts := 1 } ∧
    (∀ m : UdcStateMonitor,
      (_handle_state_change m "not_attached").gate.relayingActive = false) :=
  c1_broken_pipe oracleBrokenPipe 2 writeStateOn (by decide) rfl

/-- C10 (confirmed): the per-event dispatch never propagates an
exception — for every write oracle, retry budget and state it returns
normally — and consequently the relay read loop terminates with an
error only when a device **read** raises: over any schedule of read
steps containing no read error, the loop runs to completion. -/
theorem c10_write_failures_never_escape :
    (∀ (b : Nat → Option PyExc) (n : Nat) (s : RelayWriteState),
      exceptOk (_process_event_with_retry b n s) = true) ∧
    (∀ (steps : List ReadStep) (st : DeviceRelayState),
      noReadErrors steps = true →
      exceptOk (async_relay_events_loop steps st) = true) :=
  ⟨fun b n s => process_event_isOk b n s,
   fun steps st h => async_loop_isOk steps st h⟩

/-- Witness for `c10_write_failures_never_escape` on a concrete
schedule (a failing write followed by a successful one). -/
theorem c10_write_failures_never_escape_witness :
    exceptOk (async_relay_events_loop
      [ReadStep.readEvent CategorizedEvent.rel
          (fun _ => some PyExc.otherException),
       ReadStep.readEvent
          (CategorizedEvent.key ⟨some "KEY_A", KeyPressState.down⟩)
          (fun _ => none)]
      { toggler := none, grabDevice := true, currentlyGrabbed := false
        maxRetries := 2, write := writeStateOn }) = true :=
  c10_write_failures_never_escape.2 _ _ rfl

/-!
## Claim theorems: gate inputs and toggler (C2, C4, C8)
-/

/-- C8 (confirmed): on a UDC poll iteration, if the state read from the
file differs from the last observed value then the host-configured
event becomes set iff the new value is exactly `"configured"`, the new
value is recorded as last-observed, and the gate-recompute callback is
invoked exactly once; if the value is unchanged, the monitor state
(including the gate) is untouched; a missing file is read as
`"not_attached"` and clears the event. -/
theorem c8_udc_poll (m : UdcStateMonitor) (file : Option String) :
    (some (_read_udc_state file) ≠ m.lastState →
      (_poll_state_iteration m file).gate.udcConfigured =
          (_read_udc_state file == "configured") ∧
      (_poll_state_iteration m file).lastState =
          some (_read_udc_state file) ∧
      (_poll_state_iteration m file).gate.publishCount =
          m.gate.publishCount + 1) ∧
    (some (_read_udc_state file) = m.lastState →
      _poll_state_iteration m file = m) ∧
    _read_udc_state none = "not_attached" ∧
    (some "not_attached" ≠ m.lastState →
      (_poll_state_iteration m none).gate.udcConfigured = false) := by
  refine ⟨?_, ?_, rfl, ?_⟩
  · intro h
    simp [_poll_state_iteration, h, _handle_state_change, update_relaying]
  · intro h
    simp [_poll_state_iteration, h]
  · intro h
    have hr : _read_udc_state none = "not_attached" := rfl
    simp [_poll_state_iteration, hr, h, _handle_state_change, update_relaying]

/-- Witness for `c8_udc_poll`: a first poll observing `"configured"`
from a fresh monitor. -/
theorem c8_udc_poll_witness :
    (_poll_state_iteration { lastState := none, gate := gateAllOn }
        (some "configured")).gate.udcConfigured =
      (_read_udc_state (some "configured") == "configured") ∧
    (_poll_state_iteration { lastState := none, gate := gateAllOn }
        (some "configured")).lastState =
      some (_read_udc_state (some "configured")) ∧
    (_poll_state_iteration { lastState := none, gate := gateAllOn }
        (some "configured")).gate.publishCount = gateAllOn.publishCount + 1 :=
  (c8_udc_poll { lastState := none, gate := gateAllOn }
    (some "configured")).1 (by simp)

/-- C4 counterexample: with devices found, the host **not** configured
and the gate accordingly clear, a manual shortcut-override transition
(`toggle_relaying`) sets the gate even though the host-configured input
is clear — so after this input transition the effective gate is *not*
the conjunction of the enabled gate inputs. -/
theorem c4_conjunction_counterexample :
    (ShortcutToggler.toggle_relaying
        { shortcutKeys := ["KEY_LEFTCTRL", "KEY_LEFTSHIFT", "KEY_Q"]
          currentlyPressed := ["KEY_LEFTCTRL", "KEY_LEFTSHIFT", "KEY_Q"]
          releasedAllCount := 0 }
        { devicesFound := true, udcConfigured := false
          relayingActive := false, publishCount := 0 }).2.relayingActive
      = true ∧
    (ShortcutToggler.toggle_relaying
        { shortcutKeys := ["KEY_LEFTCTRL", "KEY_LEFTSHIFT", "KEY_Q"]
          currentlyPressed := ["KEY_LEFTCTRL", "KEY_LEFTSHIFT", "KEY_Q"]
          releasedAllCount := 0 }
        { devicesFound := true, udcConfigured := false
          relayingActive := false, publishCount := 0 }).2.udcConfigured
      = false :=
  ⟨rfl, rfl⟩

/-- C4 (corrected): a host-configured transition or a devices-found
transition recomputes and publishes the gate exactly once as the
conjunction of the devices-found and host-configured inputs; a manual
shortcut-override transition publishes exactly once but sets the gate
to the **negation** of its previous value, regardless of the other
inputs, rather than to a conjunction including them. -/
theorem c4_gate_transitions :
    (∀ (m : UdcStateMonitor) (ns : String),
      (_handle_state_change m ns).gate.relayingActive =
        ((_handle_state_change m ns).gate.devicesFound &&
          (_handle_state_change m ns).gate.udcConfigured) ∧
      (_handle_state_change m ns).gate.publishCount =
        m.gate.publishCount + 1) ∧
    (∀ rc : RelayController,
      (_update_devices_found_event rc).gate.relayingActive =
        ((_update_devices_found_event rc).gate.devicesFound &&
          (_update_devices_found_event rc).gate.udcConfigured) ∧
      (_update_devices_found_event rc).gate.publishCount =
        rc.gate.publishCount + 1) ∧
    (∀ (t : ShortcutToggler) (g : GateState),
      (ShortcutToggler.toggle_relaying t g).2.relayingActive =
        !g.relayingActive ∧
      (ShortcutToggler.toggle_relaying t g).2.publishCount =
        g.publishCount + 1) := by
  refine ⟨?_, ?_, ?_⟩
  · intro m ns
    simp [_handle_state_change, update_relaying]
  · intro rc
    unfold _update_devices_found_event
    split <;> simp [update_relaying]
  · intro t g
    unfold ShortcutToggler.toggle_relaying
    by_cases h : g.relayingActive = true <;> simp [h]

/-- Folds a list of key events through
`ShortcutToggler.handle_key_event`, threading the shared gate. -/
def runToggler (tg : ShortcutToggler × GateState) (evs : List KeyEvent) :
    ShortcutToggler × GateState :=
  evs.foldl (fun p e => ShortcutToggler.handle_key_event p.1 p.2 e) tg

/-- The shortcut toggler of the C2 scenario: shortcut
`{KEY_LEFTCTRL, KEY_LEFTSHIFT, KEY_Q}`, nothing pressed yet. -/
def togglerC2 : ShortcutToggler :=
  { shortcutKeys := ["KEY_LEFTCTRL", "KEY_LEFTSHIFT", "KEY_Q"]
    currentlyPressed := [], releasedAllCount := 0 }

/-- The gate of the C2 scenario: relaying initially off. -/
def gateC2 : GateState :=
  { devicesFound := true, udcConfigured := true, relayingActive := false
    publishCount := 0 }

/-- C2 (code bug): with relaying initially off, pressing
`KEY_LEFTCTRL`, `KEY_LEFTSHIFT`, `KEY_Q` flips the gate exactly once
(gate on, one publish), but then releasing `KEY_Q` and re-pressing it
while the other two stay held flips the gate **again** (gate back off,
two publishes), because `toggle_relaying` clears `currently_pressed`
only on the toggle-off edge, not on the toggle-on edge.  The claim (and
the spec's edge-case requirement) say the second flip must not happen
until the full combination has been released and re-pressed. -/
theorem c2_toggler_double_fire :
    (runToggler (togglerC2, gateC2)
        [⟨some "KEY_LEFTCTRL", KeyPressState.down⟩,
         ⟨some "KEY_LEFTSHIFT", KeyPressState.down⟩,
         ⟨some "KEY_Q", KeyPressState.down⟩]).2.relayingActive = true ∧
    (runToggler (togglerC2, gateC2)
        [⟨some "KEY_LEFTCTRL", KeyPressState.down⟩,
         ⟨some "KEY_LEFTSHIFT", KeyPressState.down⟩,
         ⟨some "KEY_Q", KeyPressState.down⟩]).2.publishCount = 1 ∧
    (runToggler (togglerC2, gateC2)
        [⟨some "KEY_LEFTCTRL", KeyPressState.down⟩,
         ⟨some "KEY_LEFTSHIFT", KeyPressState.down⟩,
         ⟨some "KEY_Q", KeyPressState.down⟩,
         ⟨some "KEY_Q", KeyPressState.up⟩,
         ⟨some "KEY_Q", KeyPressState.down⟩]).2.relayingActive = false ∧
    (runToggler (togglerC2, gateC2)
        [⟨some "KEY_LEFTCTRL", KeyPressState.down⟩,
         ⟨some "KEY_LEFTSHIFT", KeyPressState.down⟩,
         ⟨some "KEY_Q", KeyPressState.down⟩,
         ⟨some "KEY_Q", KeyPressState.up⟩,
         ⟨some "KEY_Q", KeyPressState.down⟩]).2.publishCount = 2 := by
  refine ⟨?_, ?_, ?_, ?_⟩ <;> decide

/-!
## Claim theorems: device matching (C9)
-/

theorem containsSub_nil (l : List Char) : containsSub [] l = true := by
  cases l <;> rfl

/-- C9 (confirmed): a `DeviceIdentifier` built from the empty string is
classified as a name-substring identifier, and its `matches` predicate
returns `true` for every device, since the empty string is a substring
of every device name. -/
theorem c9_empty_identifier_matches_all :
    (DeviceIdentifier.ofString "").type = IdentifierType.name ∧
    ∀ d : InputDevice, (DeviceIdentifier.ofString "").matches d = true := by
  refine ⟨rfl, ?_⟩
  intro d
  exact containsSub_nil (pyLower d.name).data

/-!
## Claim theorems: controller matching and removal (C6, C7)
-/

theorem skipNameLoop_eq_false_iff (nl : String) (l : List String) :
    skipNameLoop nl l = false ↔
      ∃ p ∈ l, pyStartsWith nl (pyLower p) = true := by
  induction l with
  | nil => simp [skipNameLoop]
  | cons p rest ih =>
    by_cases h : pyStartsWith nl (pyLower p) = true
    · simp [skipNameLoop, h]
    · rw [Bool.not_eq_true] at h
      simp [skipNameLoop, h, ih]

/-- C6 (confirmed): `_should_relay` in auto-discovery mode returns
`false` iff the device's name starts (case-insensitively) with one of
the configured skip prefixes, and `true` otherwise; in explicit mode it
returns `true` iff some configured `DeviceIdentifier` matches the
device; and the two modes are never combined — in auto-discovery mode
the decision does not depend on the identifier list, and in explicit
mode it does not depend on the skip list. -/
theorem c6_should_relay (rc : RelayController) (d : InputDevice) :
    (rc.autoDiscover = true →
      ((_should_relay rc d = false) ↔
        ∃ p ∈ rc.skipNamePrefixes,
          pyStartsWith (pyLower d.name) (pyLower p) = true)) ∧
    (rc.autoDiscover = false →
      ((_should_relay rc d = true) ↔
        ∃ di ∈ rc.deviceIds, di.matches d = true)) ∧
    (rc.autoDiscover = true → ∀ ids2,
      _should_relay { rc with deviceIds := ids2 } d = _should_relay rc d) ∧
    (rc.autoDiscover = false → ∀ sk2,
      _should_relay { rc with skipNamePrefixes := sk2 } d =
        _should_relay rc d) := by
  refine ⟨?_, ?_, ?_, ?_⟩
  · intro h
    simp [_should_relay, h, skipNameLoop_eq_false_iff]
  · intro h
    simp [_should_relay, h, List.any_eq_true]
  · intro h ids2
    simp [_should_relay, h]
  · intro h sk2
    simp [_should_relay, h]

/-- The controller of the C6 witness: auto-discovery with the default
skip list `["vc4-hdmi"]`. -/
def rcAuto : RelayController :=
  { deviceIds := [], autoDiscover := true, skipNamePrefixes := ["vc4-hdmi"]
    activeTasks := [], gate := gateAllOn, cancelLog := [] }

/-- The on-board HDMI input device of the C6 witness. -/
def devHdmi : InputDevice :=
  { path := "/dev/input/event0", name := "vc4-hdmi-0/input0", uniq := none }

/-- Witness for `c6_should_relay`: the default skip prefix excludes the
on-board HDMI device in auto-discovery mode. -/
theorem c6_should_relay_witness :
    (_should_relay rcAuto devHdmi = false) ↔
      ∃ p ∈ rcAuto.skipNamePrefixes,
        pyStartsWith (pyLower devHdmi.name) (pyLower p) = true :=
  (c6_should_relay rcAuto devHdmi).1 rfl

theorem dictPop_not_mem (p : String) (l : List (String × TaskEntry))
    (h : ∀ kv ∈ l, kv.1 ≠ p) : dictPop p l = (none, l) := by
  induction l with
  | nil => rfl
  | cons kv rest ih =>
    obtain ⟨k, v⟩ := kv
    have h1 : k ≠ p := h (k, v) (by simp)
    have h2 : ∀ kv ∈ rest, kv.1 ≠ p := fun x hx => h x (by simp [hx])
    simp [dictPop, h1, ih h2]

theorem dictPop_snd_not_mem (p : String) (l : List (String × TaskEntry))
    (h : (l.map Prod.fst).Nodup) :
    ∀ kv ∈ (dictPop p l).2, kv.1 ≠ p := by
  induction l with
  | nil => intro kv hkv; simp [dictPop] at hkv
  | cons hd rest ih =>
    obtain ⟨k, v⟩ := hd
    rw [List.map_cons, List.nodup_cons] at h
    obtain ⟨hk, hrest⟩ := h
    by_cases hkp : k = p
    · subst hkp
      intro kv hkv hcontra
      simp [dictPop] at hkv
      apply hk
      have hmem : kv.1 ∈ rest.map Prod.fst :=
        List.mem_map_of_mem Prod.fst hkv
      rwa [hcontra] at hmem
    · intro kv hkv
      have hne : (k == p) = false := by simp [hkp]
      simp [dictPop, hne] at hkv
      rcases hkv with hkv | hkv
      · rw [hkv]; exact hkp
      · exact ih hrest kv hkv

theorem remove_device_activeTasks (rc : RelayController) (p : String) :
    (remove_device rc p).activeTasks = (dictPop p rc.activeTasks).2 := by
  simp only [remove_device, _update_devices_found_event]
  cases h : (dictPop p rc.activeTasks).1 with
  | none => simp [h]
  | some t => by_cases ht : t.done <;> simp [h, ht]

theorem remove_device_cancelLog (rc : RelayController) (p : String) :
    (remove_device rc p).cancelLog =
      (match (dictPop p rc.activeTasks).1 with
        | some t => if t.done then rc.cancelLog else rc.cancelLog ++ [p]
        | none => rc.cancelLog) := by
  simp only [remove_device, _update_devices_found_event]
  cases h : (dictPop p rc.activeTasks).1 with
  | none => simp [h]
  | some t => by_cases ht : t.done <;> simp [h, ht]

theorem remove_device_gate (rc : RelayController) (p : String) :
    (remove_device rc p).gate.devicesFound =
      !(dictPop p rc.activeTasks).2.isEmpty ∧
    (remove_device rc p).gate.udcConfigured = rc.gate.udcConfigured ∧
    (remove_device rc p).gate.relayingActive =
      (!(dictPop p rc.activeTasks).2.isEmpty && rc.gate.udcConfigured) := by
  simp only [remove_device, _update_devices_found_event]
  cases hl : (dictPop p rc.activeTasks).2 with
  | nil =>
    cases h : (dictPop p rc.activeTasks).1 with
    | none => simp [h, hl, update_relaying]
    | some t => by_cases ht : t.done <;> simp [h, ht, hl, update_relaying]
  | cons a as =>
    cases h : (dictPop p rc.activeTasks).1 with
    | none => simp [h, hl, update_relaying]
    | some t => by_cases ht : t.done <;> simp [h, ht, hl, update_relaying]

/-- C7 (confirmed): `remove_device` is idempotent — with the active
table's keys distinct (a dict invariant), calling it twice on the same
path leaves the active-device table, the cancel log (so no
double-cancellation) and the devices-found/relaying gate components in
the same state as calling it once; and on a path not in the table it is
a no-op on the table and the cancel log. -/
theorem c7_remove_device_idempotent (rc : RelayController) (p : String)
    (h : (rc.activeTasks.map Prod.fst).Nodup) :
    (remove_device (remove_device rc p) p).activeTasks =
      (remove_device rc p).activeTasks ∧
    (remove_device (remove_device rc p) p).cancelLog =
      (remove_device rc p).cancelLog ∧
    (remove_device (remove_device rc p) p).gate.devicesFound =
      (remove_device rc p).gate.devicesFound ∧
    (remove_device (remove_device rc p) p).gate.relayingActive =
      (remove_device rc p).gate.relayingActive ∧
    (p ∉ rc.activeTasks.map Prod.fst →
      (remove_device rc p).activeTasks = rc.activeTasks ∧
      (remove_device rc p).cancelLog = rc.cancelLog) := by
  have hTasks1 := remove_device_activeTasks rc p
  have hpop2 : dictPop p (remove_device rc p).activeTasks =
      (none, (remove_device rc p).activeTasks) := by
    rw [hTasks1]
    exact dictPop_not_mem p _ (dictPop_snd_not_mem p rc.activeTasks h)
  have hTasks2 := remove_device_activeTasks (remove_device rc p) p
  have hLog2 := remove_device_cancelLog (remove_device rc p) p
  have hGate1 := remove_device_gate rc p
  have hGate2 := remove_device_gate (remove_device rc p) p
  refine ⟨?_, ?_, ?_, ?_, ?_⟩
  · rw [hTasks2, hpop2]
  · rw [hLog2, hpop2]
  · have hpop2' : dictPop p (dictPop p rc.activeTasks).2 =
        (none, (dictPop p rc.activeTasks).2) := by rw [← hTasks1]; exact hpop2
    simp [hGate2.1, hTasks1, hpop2', hGate1.1]
  · have hpop2' : dictPop p (dictPop p rc.activeTasks).2 =
        (none, (dictPop p rc.activeTasks).2) := by rw [← hTasks1]; exact hpop2
    simp [hGate2.2.2, hTasks1, hpop2', hGate1.2.1, hGate1.2.2]
  · intro hp
    have hnm : ∀ kv ∈ rc.activeTasks, kv.1 ≠ p := by
      intro kv hkv heq
      exact hp (heq ▸ List.mem_map_of_mem Prod.fst hkv)
    have hpop := dictPop_not_mem p rc.activeTasks hnm
    constructor
    · rw [remove_device_activeTasks, hpop]
    · rw [remove_device_cancelLog, hpop]

/-- The controller of the C7 witness: one active (not yet done) relay
task. -/
def rcOneTask : RelayController :=
  { deviceIds := [], autoDiscover := true, skipNamePrefixes := ["vc4-hdmi"]
    activeTasks := [("/dev/input/event5", { done := false })]
    gate := gateAllOn, cancelLog := [] }

/-- Witness for `c7_remove_device_idempotent` on a concrete
one-entry table. -/
theorem c7_remove_device_idempotent_witness :
    (remove_device (remove_device rcOneTask "/dev/input/event5")
        "/dev/input/event5").activeTasks =
      (remove_device rcOneTask "/dev/input/event5").activeTasks ∧
    (remove_device (remove_device rcOneTask "/dev/input/event5")
        "/dev/input/event5").cancelLog =
      (remove_device rcOneTask "/dev/input/event5").cancelLog ∧
    (remove_device (remove_device rcOneTask "/dev/input/event5")
        "/dev/input/event5").gate.devicesFound =
      (remove_device rcOneTask "/dev/input/event5").gate.devicesFound ∧
    (remove_device (remove_device rcOneTask "/dev/input/event5")
        "/dev/input/event5").gate.relayingActive =
      (remove_device rcOneTask "/dev/input/event5").gate.relayingActive ∧
    ("/dev/input/event5" ∉ rcOneTask.activeTasks.map Prod.fst →
      (remove_device rcOneTask "/dev/input/event5").activeTasks =
        rcOneTask.activeTasks ∧
      (remove_device rcOneTask "/dev/input/event5").cancelLog =
        rcOneTask.cancelLog) :=
  c7_remove_device_idempotent rcOneTask "/dev/input/event5" (by decide)

/-!
## Claim theorems: MAC identifiers (C5)
-/

/-- The character-wise action of MAC normalization: lower-case, then
turn a dash into a colon. -/
def canonMacChar (c : Char) : Char :=
  if Char.toLower c == '-' then ':' else Char.toLower c

theorem normalize_mac_eq_map (v : String) :
    _normalize_identifier v IdentifierType.mac =
      String.mk (v.data.map canonMacChar) := by
  unfold _normalize_identifier pyReplaceDashColon pyLower
  rw [List.map_map]
  rfl

theorem mac_first_hex (v : String) (h : mac_regex_match v = true) :
    ∃ a rest, v.data = a :: rest ∧ isHexChar a = true := by
  unfold mac_regex_match at h
  cases hv : v.data with
  | nil => rw [hv] at h; exact Bool.noConfusion h
  | cons a rest =>
    rw [hv] at h
    refine ⟨a, rest, rfl, ?_⟩
    cases rest with
    | nil => exact Bool.noConfusion h
    | cons b rest2 =>
      cases rest2 with
      | nil => exact Bool.noConfusion h
      | cons d rest3 =>
        have h' : (((isHexChar a && isHexChar b) && (d == ':' || d == '-'))
            && macChunks 4 rest3) = true := h
        simp only [Bool.and_eq_true] at h'
        exact h'.1.1.1

theorem mac_not_path (v : String) (h : mac_regex_match v = true) :
    path_regex_match v = false := by
  obtain ⟨a, rest, hv, ha⟩ := mac_first_hex v h
  have hne : ('/' == a) = false := by
    cases hq : ('/' == a) with
    | false => rfl
    | true =>
      have heq : '/' = a := beq_iff_eq.mp hq
      rw [← heq] at ha
      exact absurd ha (by decide)
  unfold path_regex_match
  rw [hv]
  have hsplit : "/dev/input/event".data = '/' :: "dev/input/event".data := rfl
  rw [hsplit]
  simp [listStarts, hne]

/-- C5 counterexample: the device's unique id is **not**
delimiter-normalized before the comparison, only lower-cased.  The
identifier `"aa:bb:cc:dd:ee:ff"` and the device unique id
`"AA-BB-CC-DD-EE-FF"` denote the same MAC address in the two delimited
forms, yet `matches` returns `false`, whereas the claim (normalize
both sides to lower-case colon-delimited form) requires `true`. -/
theorem c5_uniq_not_normalized_counterexample :
    mac_regex_match "aa:bb:cc:dd:ee:ff" = true ∧
    mac_regex_match "AA-BB-CC-DD-EE-FF" = true ∧
    (DeviceIdentifier.ofString "aa:bb:cc:dd:ee:ff").type =
      IdentifierType.mac ∧
    (DeviceIdentifier.ofString "aa:bb:cc:dd:ee:ff").matches
      { path := "/dev/input/event7", name := "BT Keyboard"
        uniq := some "AA-BB-CC-DD-EE-FF" } = false := by
  refine ⟨?_, ?_, ?_, ?_⟩ <;> decide

/-- C5 (corrected): every valid 12-hex-digit MAC string in colon- or
dash-delimited form is classified as a MAC identifier; the
**identifier** is normalized to lower-case colon-delimited form, so two
differently-delimited, differently-cased representations of the same
address get equal normalized values and match exactly the same devices;
the device's unique id, however, is only lower-cased (not
delimiter-normalized) before the comparison. -/
theorem c5_mac_matching (v1 v2 : String) (d : InputDevice)
    (h1 : mac_regex_match v1 = true) (h2 : mac_regex_match v2 = true)
    (hsame : v1.data.map canonMacChar = v2.data.map canonMacChar) :
    _determine_identifier_type v1 = IdentifierType.mac ∧
    _determine_identifier_type v2 = IdentifierType.mac ∧
    (DeviceIdentifier.ofString v1).normalizedValue =
      (DeviceIdentifier.ofString v2).normalizedValue ∧
    (DeviceIdentifier.ofString v1).matches d =
      (DeviceIdentifier.ofString v2).matches d ∧
    (DeviceIdentifier.ofString v1).matches d =
      (pyLower (d.uniq.getD "") ==
        (DeviceIdentifier.ofString v1).normalizedValue) := by
  have ht : ∀ v, mac_regex_match v = true →
      _determine_identifier_type v = IdentifierType.mac := by
    intro v hv
    unfold _determine_identifier_type
    rw [mac_not_path v hv]
    simp [hv]
  have hnv : ∀ v, mac_regex_match v = true →
      (DeviceIdentifier.ofString v).normalizedValue =
        String.mk (v.data.map canonMacChar) := by
    intro v hv
    show _normalize_identifier v (_determine_identifier_type v) = _
    rw [ht v hv, normalize_mac_eq_map]
  have hnorm : (DeviceIdentifier.ofString v1).normalizedValue =
      (DeviceIdentifier.ofString v2).normalizedValue := by
    rw [hnv v1 h1, hnv v2 h2, hsame]
  have hmatch : ∀ v, mac_regex_match v = true →
      (DeviceIdentifier.ofString v).matches d =
        (pyLower (d.uniq.getD "") ==
          (DeviceIdentifier.ofString v).normalizedValue) := by
    intro v hv
    have htype : (DeviceIdentifier.ofString v).type = IdentifierType.mac :=
      ht v hv
    simp [DeviceIdentifier.matches, htype]
  refine ⟨ht v1 h1, ht v2 h2, hnorm, ?_, hmatch v1 h1⟩
  rw [hmatch v1 h1, hmatch v2 h2, hnorm]

/-- Witness for `c5_mac_matching`: the two delimited/cased forms of the
same address, against a concrete device. -/
theorem c5_mac_matching_witness :
    _determine_identifier_type "AA-BB-CC-DD-EE-FF" = IdentifierType.mac ∧
    _determine_identifier_type "aa:bb:cc:dd:ee:ff" = IdentifierType.mac ∧
    (DeviceIdentifier.ofString "AA-BB-CC-DD-EE-FF").normalizedValue =
      (DeviceIdentifier.ofString "aa:bb:cc:dd:ee:ff").normalizedValue ∧
    (DeviceIdentifier.ofString "AA-BB-CC-DD-EE-FF").matches devHdmi =
      (DeviceIdentifier.ofString "aa:bb:cc:dd:ee:ff").matches devHdmi ∧
    (DeviceIdentifier.ofString "AA-BB-CC-DD-EE-FF").matches devHdmi =
      (pyLower (devHdmi.uniq.getD "") ==
        (DeviceIdentifier.ofString "AA-BB-CC-DD-EE-FF").normalizedValue) :=
  c5_mac_matching "AA-BB-CC-DD-EE-FF" "aa:bb:cc:dd:ee:ff" devHdmi
    (by decide) (by decide) (by decide)
